import Mathlib

/-!
Verification of the trade-record computation and CRUD engine of the
Trade-Tracker repository (src/app.py), as a shallow embedding.

Python values appearing in a trade record are embedded as the inductive
type `Value`: `null` is Python `None`, `nan` is a float NaN (as produced
by pandas for an empty CSV cell), `num` is a Python float (embedded as a
rational, since the app only multiplies user-entered decimals), `intv` a
Python int, `str` a string, `listv` a list of strings (the Criteria
multiselect), `date` a `datetime.date` shown as its ISO string, and `ts`
a pandas Timestamp shown as its ISO string.

The numeric-coercion helpers mirror Python semantics: `truthy` is Python
truthiness, `pyFloat`/`pyInt` are `float(x)` / `int(x)` returning
`Option.none` where Python raises `ValueError`.  The string-to-number
parsers cover Python's plain decimal literals with optional sign,
fractional part and exponent (the exotic `inf`/`nan`/underscore literal
forms are outside the model, and none of the app's flows produce them).

`add_trade`, `update_trade` and `delete_trade` are translated directly
from src/app.py.  The functions return the resulting list together with
an `Option String` holding the `st.error` message the code displays
(`Option.none` when no error is displayed), which is the code's only
error channel: the Python functions never raise.

The interchange codec models pandas `DataFrame.to_csv` / `read_csv` at
cell granularity: a CSV document is a header row plus one row of cell
strings per record (pandas' quote/unquote of cells containing commas is
an inverse pair and is absorbed by this granularity).  `encodeCell`
writes a cell the way `to_csv` renders the corresponding Python value
(`None`/NaN as an empty cell, a float with a decimal point, a list via
its Python `str(...)` representation); `decodeCell` applies `read_csv`'s
value inference (empty cell to NaN, integer literal to int, decimal
literal to float, anything else kept as a string).  `pdToDatetime`
models `pd.to_datetime(_, errors='coerce')` restricted to ISO
`YYYY-MM-DD` dates, the format every date the app writes has.
-/

namespace TradeTracker

inductive Value where
  | null
  | nan
  | num (x : ℚ)
  | intv (n : ℤ)
  | str (s : String)
  | listv (l : List String)
  | date (s : String)
  | ts (s : String)
  deriving DecidableEq, Repr

/-- One trade record: the keys of `get_default_trade_entry` in src/app.py,
in dictionary order (which is also the CSV column order). -/
structure Trade where
  date : Value
  symbol : Value
  strategy : Value
  cePe : Value
  strikePrice : Value
  expiryDate : Value
  ltp : Value
  lotSize : Value
  quantity : Value
  totalQuantity : Value
  buySize : Value
  notes : Value
  image : Value
  cLevel : Value
  criteria : Value
  currentWave : Value
  deriving DecidableEq, Repr

def isNull : Value → Bool
  | Value.null => true
  | _ => false

def isNan : Value → Bool
  | Value.nan => true
  | _ => false

/-- Python truthiness of an embedded value. -/
def truthy : Value → Bool
  | Value.null => false
  | Value.nan => true
  | Value.num x => decide (x ≠ 0)
  | Value.intv n => decide (n ≠ 0)
  | Value.str s => decide (s ≠ "")
  | Value.listv l => !l.isEmpty
  | Value.date _ => true
  | Value.ts _ => true

def digitToNat (c : Char) : ℕ := c.toNat - 48

def natOfDigits (cs : List Char) : ℕ := cs.foldl (fun a c => a * 10 + digitToNat c) 0

def allDigits (cs : List Char) : Bool := cs.all Char.isDigit

/-- Split a character list at the first occurrence of `sep`, if any. -/
def splitAtChar (sep : Char) : List Char → Option (List Char × List Char)
  | [] => Option.none
  | c :: rest =>
    if c = sep then some ([], rest)
    else (splitAtChar sep rest).map (fun p => (c :: p.1, p.2))

/-- Python `int(s)` on a string: optional sign followed by digits. -/
def parseIntQ (s : String) : Option ℤ :=
  match s.data with
  | [] => Option.none
  | c :: rest =>
    if c = '-' then
      if !rest.isEmpty && allDigits rest then some (-(natOfDigits rest : ℤ)) else Option.none
    else if c = '+' then
      if !rest.isEmpty && allDigits rest then some ((natOfDigits rest : ℤ)) else Option.none
    else if allDigits (c :: rest) && !(c :: rest).isEmpty then some ((natOfDigits (c :: rest) : ℤ))
    else Option.none

/-- The rational denoted by integer part `ip`, fractional digits worth
`fp` over `k` places: `ip.fp`. -/
def decVal (ip fp k : ℕ) : ℚ := (ip : ℚ) + (fp : ℚ) / (10 : ℚ) ^ k

/-- Scientific notation: mantissa times ten to a signed exponent. -/
def expVal (m : ℚ) (e : ℤ) : ℚ := m * (10 : ℚ) ^ e

/-- An unsigned decimal literal `digits`, `digits.digits`, `digits.` or `.digits`. -/
def parseDecimalQ (cs : List Char) : Option ℚ :=
  match splitAtChar '.' cs with
  | Option.none =>
    if allDigits cs && !cs.isEmpty then some (decVal (natOfDigits cs) 0 0) else Option.none
  | some (ip, fp) =>
    if allDigits ip && allDigits fp && !(ip.isEmpty && fp.isEmpty) then
      some (decVal (natOfDigits ip) (natOfDigits fp) fp.length)
    else Option.none

/-- Decimal literal with an optional integer exponent part (`1.5e3`). -/
def parseUnsignedQ (cs : List Char) : Option ℚ :=
  match splitAtChar 'e' cs with
  | some (m, ex) =>
    match parseDecimalQ m, parseIntQ (String.mk ex) with
    | some mv, some ev => some (expVal mv ev)
    | _, _ => Option.none
  | Option.none =>
    match splitAtChar 'E' cs with
    | some (m, ex) =>
      match parseDecimalQ m, parseIntQ (String.mk ex) with
      | some mv, some ev => some (expVal mv ev)
      | _, _ => Option.none
    | Option.none => parseDecimalQ cs

/-- Python `float(s)` on a string: signed decimal literal. -/
def parseFloatQ (s : String) : Option ℚ :=
  match s.data with
  | [] => Option.none
  | c :: rest =>
    if c = '-' then (parseUnsignedQ rest).map Neg.neg
    else if c = '+' then parseUnsignedQ rest
    else parseUnsignedQ (c :: rest)

/-- Python `float(x)`: `Option.none` where Python raises. -/
def pyFloat : Value → Option Value
  | Value.num x => some (Value.num x)
  | Value.intv n => some (Value.num (n : ℚ))
  | Value.nan => some Value.nan
  | Value.str s => (parseFloatQ s).map Value.num
  | _ => Option.none

/-- Truncation of a rational toward zero, as Python `int(float)` does. -/
def truncQ (x : ℚ) : ℤ :=
  if 0 ≤ x.num then ((x.num.natAbs / x.den : ℕ) : ℤ) else -(((x.num.natAbs / x.den : ℕ) : ℤ))

/-- Python `int(x)`: `Option.none` where Python raises (`int(nan)` raises). -/
def pyInt : Value → Option Value
  | Value.intv n => some (Value.intv n)
  | Value.num x => some (Value.intv (truncQ x))
  | Value.str s => (parseIntQ s).map Value.intv
  | _ => Option.none

/-- The coercion pattern of add_trade/update_trade: `float(v) if v else None`. -/
def coerceFloat (v : Value) : Option Value :=
  if truthy v then pyFloat v else some Value.null

/-- The int coercion pattern: `int(v) if v else None`. -/
def coerceInt (v : Value) : Option Value :=
  if truthy v then pyInt v else some Value.null

/-- The four coercions of src/app.py lines 50-53 / 74-77; `Option.none`
when any of them raises ValueError (the operation is then rejected). -/
def coerceTrade (t : Trade) : Option Trade :=
  match coerceFloat t.ltp, coerceFloat t.lotSize, coerceInt t.quantity, coerceFloat t.strikePrice with
  | some a, some b, some c, some d =>
    some { t with ltp := a, lotSize := b, quantity := c, strikePrice := d }
  | _, _, _, _ => Option.none

/-- Does one of the four numeric raw fields make `float(...)` raise? -/
def invalidFloat (v : Value) : Bool := truthy v && (pyFloat v).isNone

def invalidInt (v : Value) : Bool := truthy v && (pyInt v).isNone

def anyInvalid (t : Trade) : Bool :=
  invalidFloat t.ltp || invalidFloat t.lotSize || invalidInt t.quantity || invalidFloat t.strikePrice

/-- Python `a * b` on coerced numeric values (float/int/NaN). -/
def mulVal : Value → Value → Value
  | Value.nan, _ => Value.nan
  | _, Value.nan => Value.nan
  | Value.num a, Value.num b => Value.num (a * b)
  | Value.num a, Value.intv n => Value.num (a * (n : ℚ))
  | Value.intv n, Value.num a => Value.num ((n : ℚ) * a)
  | Value.intv m, Value.intv n => Value.intv (m * n)
  | _, _ => Value.null

/-- src/app.py lines 33-43. -/
def calculate_buy_size (total_quantity ltp : Value) : Value :=
  if !isNull total_quantity && !isNull ltp then mulVal total_quantity ltp else Value.null

/-- The derived-field computation shared by add_trade (lines 58-65) and
update_trade (lines 83-90): Total Quantity, then Buy Size from it. -/
def derive (t : Trade) : Trade :=
  let tq := if !isNull t.lotSize && !isNull t.quantity then mulVal t.lotSize t.quantity
            else Value.null
  { t with totalQuantity := tq, buySize := calculate_buy_size tq t.ltp }

def invalidMsg : String :=
  "Invalid numeric input. Please enter numbers only for LTP, lot size, quantity and strike price."

/-- src/app.py lines 45-68.  The second component is the `st.error`
message displayed, `Option.none` when none is. -/
def add_trade (trades : List Trade) (t : Trade) : List Trade × Option String :=
  match coerceTrade t with
  | Option.none => (trades, some invalidMsg)
  | some c => (trades ++ [derive c], Option.none)

/-- src/app.py lines 70-92. -/
def update_trade (trades : List Trade) (index : ℤ) (t : Trade) : List Trade × Option String :=
  if 0 ≤ index ∧ index < (trades.length : ℤ) then
    match coerceTrade t with
    | Option.none => (trades, some invalidMsg)
    | some c => (trades.set index.toNat (derive c), Option.none)
  else (trades, Option.none)

/-- src/app.py lines 94-98. -/
def delete_trade (trades : List Trade) (index : ℤ) : List Trade :=
  if 0 ≤ index ∧ index < (trades.length : ℤ) then trades.eraseIdx index.toNat else trades

/-- src/app.py lines 119-121. -/
def clear_all_trades : List Trade := []

/-- The single-quote character, for Python list reprs. -/
def sq : String := (Char.ofNat 39).toString

/-- Python `str(...)` of a list of strings, as pandas writes it to a cell. -/
def pyListRepr (l : List String) : String :=
  "[" ++ String.intercalate ", " (l.map (fun s => sq ++ s ++ sq)) ++ "]"

/-- Least `k ≤ 39` with `d` dividing `10 ^ k`, when one exists. -/
def pow10Exp (d : ℕ) : Option ℕ := (List.range 40).find? (fun k => decide (d ∣ 10 ^ k))

def padZeros (s : String) (k : ℕ) : String :=
  String.mk (List.replicate (k - s.length) '0') ++ s

/-- Decimal rendering of a float value the way `repr`/pandas print it
(always with a decimal point, e.g. `100.0`); rationals that are not
decimal fractions fall back to a num/den rendering (never produced by
the app, whose floats come from decimal literals and products of them). -/
def qToCell (x : ℚ) : String :=
  let sign := if x < 0 then "-" else ""
  match pow10Exp x.den with
  | some k =>
    let scaled := x.num.natAbs * 10 ^ k / x.den
    if k = 0 then sign ++ toString scaled ++ ".0"
    else sign ++ toString (scaled / 10 ^ k) ++ "." ++ padZeros (toString (scaled % 10 ^ k)) k
  | Option.none => sign ++ toString x.num.natAbs ++ "/" ++ toString x.den

/-- How `DataFrame.to_csv` renders one value as a cell. -/
def encodeCell : Value → String
  | Value.null => ""
  | Value.nan => ""
  | Value.num x => qToCell x
  | Value.intv n => toString n
  | Value.str s => s
  | Value.listv l => pyListRepr l
  | Value.date s => s
  | Value.ts s => s

/-- Value inference of `read_csv` for one cell: empty to NaN, integer
literal to int, decimal literal to float, otherwise the string itself. -/
def decodeCell (s : String) : Value :=
  if s = "" then Value.nan
  else
    match parseIntQ s with
    | some n => Value.intv n
    | Option.none =>
      match parseFloatQ s with
      | some x => Value.num x
      | Option.none => Value.str s

/-- Is `s` an ISO `YYYY-MM-DD` date? -/
def isoDateOk (s : String) : Bool :=
  let cs := s.data
  cs.length == 10 &&
  ([0, 1, 2, 3, 5, 6, 8, 9].all (fun i => (cs.getD i ' ').isDigit)) &&
  (cs.getD 4 ' ') == '-' && (cs.getD 7 ' ') == '-' &&
  (let m := natOfDigits [cs.getD 5 ' ', cs.getD 6 ' ']
   let d := natOfDigits [cs.getD 8 ' ', cs.getD 9 ' ']
   decide (1 ≤ m) && decide (m ≤ 12) && decide (1 ≤ d) && decide (d ≤ 31))

/-- Date conversion `pd.to_datetime(_, errors=coerce)` on a decoded cell,
restricted to ISO dates: an unparseable or missing date becomes NaT (`nan`).
Numeric cells, which pandas would read as epoch offsets, are mapped to
an opaque timestamp tag. -/
def pdToDatetime : Value → Value
  | Value.nan => Value.nan
  | Value.null => Value.nan
  | Value.str s => if isoDateOk s then Value.ts s else Value.nan
  | Value.date s => if isoDateOk s then Value.ts s else Value.nan
  | Value.ts s => Value.ts s
  | Value.intv n => Value.ts ("epoch " ++ toString n)
  | Value.num x => Value.ts ("epoch " ++ qToCell x)
  | Value.listv _ => Value.nan

/-- The header written by `to_csv`: the keys of `get_default_trade_entry`
in order. -/
def headerFields : List String :=
  ["Date", "Stock/Symbol", "Strategy", "CE/PE", "Strike Price", "Expiry Date", "LTP",
   "Lot Size", "Quantity", "Total Quantity", "Buy Size", "Notes", "Image", "C Level",
   "Criteria", "Current Wave"]

def encodeRecord (t : Trade) : List String :=
  [encodeCell t.date, encodeCell t.symbol, encodeCell t.strategy, encodeCell t.cePe,
   encodeCell t.strikePrice, encodeCell t.expiryDate, encodeCell t.ltp, encodeCell t.lotSize,
   encodeCell t.quantity, encodeCell t.totalQuantity, encodeCell t.buySize, encodeCell t.notes,
   encodeCell t.image, encodeCell t.cLevel, encodeCell t.criteria, encodeCell t.currentWave]

def decodeRow (row : List String) : Trade :=
  { date := decodeCell (row.getD 0 ""), symbol := decodeCell (row.getD 1 ""),
    strategy := decodeCell (row.getD 2 ""), cePe := decodeCell (row.getD 3 ""),
    strikePrice := decodeCell (row.getD 4 ""), expiryDate := decodeCell (row.getD 5 ""),
    ltp := decodeCell (row.getD 6 ""), lotSize := decodeCell (row.getD 7 ""),
    quantity := decodeCell (row.getD 8 ""), totalQuantity := decodeCell (row.getD 9 ""),
    buySize := decodeCell (row.getD 10 ""), notes := decodeCell (row.getD 11 ""),
    image := decodeCell (row.getD 12 ""), cLevel := decodeCell (row.getD 13 ""),
    criteria := decodeCell (row.getD 14 ""), currentWave := decodeCell (row.getD 15 "") }

/-- One imported row: `read_csv` inference then the Date conversion of
src/app.py line 140. -/
def importRow (row : List String) : Trade :=
  let t := decodeRow row
  { t with date := pdToDatetime t.date }

/-- src/app.py lines 123-133: `None` for an empty list, else header plus
one row per record. -/
def export_to_csv (trades : List Trade) : Option (List (List String)) :=
  if trades.isEmpty then Option.none
  else some (headerFields :: trades.map encodeRecord)

/-- src/app.py lines 135-149: `Option.none` models the except-branch
(structural read failure — an empty document, or a document whose header
is not the interchange header, in which case the `df['Date']` lookup
raises).  Otherwise every row is read, the Date column converted with
`errors='coerce'`, and rows whose date did not parse dropped. -/
def import_from_csv (csv : List (List String)) : Option (List Trade) :=
  match csv with
  | [] => Option.none
  | header :: rows =>
    if header = headerFields then
      some ((rows.map importRow).filter (fun t => !isNan t.date))
    else Option.none

/-- src/app.py lines 247-255: the import branch of `main`.  The store is
replaced only when `import_from_csv` returned a truthy (non-`None`,
non-empty) list; otherwise the pre-import records are kept. -/
def mainImportStep (trades : List Trade) (csv : List (List String)) : List Trade :=
  match import_from_csv csv with
  | some imported => if !imported.isEmpty then imported else trades
  | Option.none => trades

def roundtrip (trades : List Trade) : Option (List Trade) :=
  (export_to_csv trades).bind import_from_csv

/-- What one export/import pass does to a single record: every cell
through the codec, and the date through `to_datetime`. -/
def recordTransfer (t : Trade) : Trade := importRow (encodeRecord t)

/-- src/app.py lines 11-29, with `datetime.now().strftime("%Y-%m-%d")`
passed in as `today`. -/
def get_default_trade_entry (today : String) : Trade :=
  { date := Value.str today, symbol := Value.str "", strategy := Value.str "",
    cePe := Value.str "CE", strikePrice := Value.null, expiryDate := Value.null,
    ltp := Value.null, lotSize := Value.null, quantity := Value.null,
    totalQuantity := Value.null, buySize := Value.null, notes := Value.str "",
    image := Value.null, cLevel := Value.null, criteria := Value.listv [],
    currentWave := Value.null }

def defaultTrade : Trade := get_default_trade_entry "2024-01-01"

/-- A raw form submission whose LTP text fails `float(...)`. -/
def badRaw : Trade := { defaultTrade with ltp := Value.str "abc" }

/-- A raw form submission whose Lot Size is the number zero. -/
def zeroLotRaw : Trade := { defaultTrade with lotSize := Value.intv 0 }

/-- A stored record with a parseable date and only string/blank fields. -/
def exTrade : Trade :=
  { defaultTrade with
    symbol := Value.str "TCS", strategy := Value.str "GZ-GZ",
    currentWave := Value.str "C" }

/-- A well-formed CSV row whose Date cell does not parse as a date. -/
def badDateRow : List String :=
  ["notadate", "TCS", "GZ-GZ", "CE", "", "", "", "", "", "", "", "", "", "", "[]", "C"]

/-- The consistency the derivation engine establishes between the stored
raw fields and the stored derived fields of one record: Total Quantity
is the product of Lot Size and Quantity when both are known and `None`
when either is unknown, and Buy Size likewise from Total Quantity and
LTP. -/
def derivedOk (r : Trade) : Prop :=
  (isNull r.lotSize = false ∧ isNull r.quantity = false →
    r.totalQuantity = mulVal r.lotSize r.quantity) ∧
  ((isNull r.lotSize = true ∨ isNull r.quantity = true) → r.totalQuantity = Value.null) ∧
  (isNull r.totalQuantity = false ∧ isNull r.ltp = false →
    r.buySize = mulVal r.totalQuantity r.ltp) ∧
  ((isNull r.totalQuantity = true ∨ isNull r.ltp = true) → r.buySize = Value.null)

/-- The worked example of the specification: Lot Size 50, Quantity 2, LTP 5. -/
def richRaw : Trade :=
  { defaultTrade with
    ltp := Value.str "5", lotSize := Value.str "50", quantity := Value.str "2",
    strikePrice := Value.str "100" }

/-- What the four coercions turn `richRaw` into. -/
def richCoerced : Trade :=
  { richRaw with
    ltp := Value.num (decVal 5 0 0), lotSize := Value.num (decVal 50 0 0),
    quantity := Value.intv 2, strikePrice := Value.num (decVal 100 0 0) }

end TradeTracker

namespace TradeTracker

/-! Helper lemmas. -/

theorem isEmpty_false_of_ne_nil {α : Type} (l : List α) (h : l ≠ []) : l.isEmpty = false := by
  cases l with
  | nil => exact absurd rfl h
  | cons a t => rfl

theorem coerceFloat_none_iff (v : Value) :
    coerceFloat v = Option.none ↔ invalidFloat v = true := by
  unfold coerceFloat invalidFloat
  cases h : truthy v <;> simp [h, Option.isNone_iff_eq_none]

theorem coerceInt_none_iff (v : Value) :
    coerceInt v = Option.none ↔ invalidInt v = true := by
  unfold coerceInt invalidInt
  cases h : truthy v <;> simp [h, Option.isNone_iff_eq_none]

/-- The whole coercion step raises exactly when one of the four fields is
invalid: the outcome of the try/except around src/app.py lines 50-53. -/
theorem coerceTrade_none_iff (t : Trade) :
    coerceTrade t = Option.none ↔ anyInvalid t = true := by
  unfold coerceTrade anyInvalid
  cases h1 : coerceFloat t.ltp <;> cases h2 : coerceFloat t.lotSize <;>
    cases h3 : coerceInt t.quantity <;> cases h4 : coerceFloat t.strikePrice <;>
    simp [← coerceFloat_none_iff, ← coerceInt_none_iff, h1, h2, h3, h4]

/-- A successful coercion replaces exactly the four numeric fields. -/
theorem coerceTrade_inv (t c : Trade) (h : coerceTrade t = some c) :
    ∃ a b q d, coerceFloat t.ltp = some a ∧ coerceFloat t.lotSize = some b ∧
      coerceInt t.quantity = some q ∧ coerceFloat t.strikePrice = some d ∧
      c = { t with ltp := a, lotSize := b, quantity := q, strikePrice := d } := by
  unfold coerceTrade at h
  cases h1 : coerceFloat t.ltp <;> cases h2 : coerceFloat t.lotSize <;>
    cases h3 : coerceInt t.quantity <;> cases h4 : coerceFloat t.strikePrice <;>
    rw [h1, h2, h3, h4] at h <;> simp at h
  exact ⟨_, _, _, _, rfl, rfl, rfl, rfl, h.symm⟩

/-- The derivation step always leaves the record derived-field consistent. -/
theorem derive_derivedOk (t : Trade) : derivedOk (derive t) := by
  have hn : isNull Value.null = true := rfl
  unfold derivedOk derive calculate_buy_size
  cases hl : isNull t.lotSize <;> cases hq : isNull t.quantity <;> simp [hl, hq, hn]
  cases hm : isNull (mulVal t.lotSize t.quantity) <;> cases hp : isNull t.ltp <;>
    simp [hm, hp]

/-- A falsy raw value is stored as None, never passed to float/int. -/
theorem truthy_false_coerce (v : Value) (h : truthy v = false) :
    coerceFloat v = some Value.null ∧ coerceInt v = some Value.null := by
  unfold coerceFloat coerceInt
  rw [h]
  simp

/-- A successful add coerces and appends: src/app.py lines 49-68. -/
theorem add_success_shape (trades : List Trade) (t : Trade) (res : List Trade)
    (h : add_trade trades t = (res, Option.none)) :
    ∃ c, coerceTrade t = some c ∧ res = trades ++ [derive c] := by
  unfold add_trade at h
  cases hc : coerceTrade t with
  | none => rw [hc] at h; simp at h
  | some c =>
    rw [hc] at h
    simp at h
    exact ⟨c, rfl, h.symm⟩

/-- A successful in-range update coerces and replaces in place. -/
theorem update_success_shape (trades : List Trade) (i : ℤ) (t : Trade) (res : List Trade)
    (h0 : 0 ≤ i) (h1 : i < (trades.length : ℤ))
    (h : update_trade trades i t = (res, Option.none)) :
    ∃ c, coerceTrade t = some c ∧ res = trades.set i.toNat (derive c) := by
  unfold update_trade at h
  rw [if_pos ⟨h0, h1⟩] at h
  cases hc : coerceTrade t with
  | none => rw [hc] at h; simp at h
  | some c =>
    rw [hc] at h
    simp at h
    exact ⟨c, rfl, h.symm⟩

/-- One export/import pass maps each record through the cell codec, in
order, dropping nothing when every date survives `to_datetime`. -/
theorem roundtrip_eq (trades : List Trade) (hne : trades ≠ [])
    (hd : ∀ t ∈ trades, isNan (recordTransfer t).date = false) :
    roundtrip trades = some (trades.map recordTransfer) := by
  have hememp : trades.isEmpty = false := isEmpty_false_of_ne_nil trades hne
  have h1 : export_to_csv trades = some (headerFields :: trades.map encodeRecord) := by
    unfold export_to_csv; simp [hememp]
  have h2 : import_from_csv (headerFields :: trades.map encodeRecord) =
      some (((trades.map encodeRecord).map importRow).filter (fun t => !isNan t.date)) := by
    unfold import_from_csv
    simp
  unfold roundtrip
  rw [h1]
  show import_from_csv (headerFields :: trades.map encodeRecord) = _
  rw [h2, List.map_map]
  have hcomp : importRow ∘ encodeRecord = recordTransfer := rfl
  rw [hcomp]
  congr 1
  apply List.filter_eq_self.mpr
  intro a ha
  simp only [List.mem_map] at ha
  obtain ⟨t, ht, rfl⟩ := ha
  simp [hd t ht]

/-- A zero raw Lot Size or Quantity coerces to None, because Python zero
is falsy. -/
theorem zero_field_coerces_null (t : Trade) (c : Trade)
    (hz : t.lotSize = Value.num 0 ∨ t.lotSize = Value.intv 0 ∨
          t.quantity = Value.num 0 ∨ t.quantity = Value.intv 0)
    (hc : coerceTrade t = some c) :
    isNull c.lotSize = true ∨ isNull c.quantity = true := by
  obtain ⟨a, b, q, d, h1, h2, h3, h4, rfl⟩ := coerceTrade_inv t c hc
  rcases hz with hz | hz | hz | hz
  · left
    rw [hz] at h2
    have : b = Value.null := by simpa [coerceFloat, truthy] using h2.symm
    simp [this, isNull]
  · left
    rw [hz] at h2
    have : b = Value.null := by simpa [coerceFloat, truthy] using h2.symm
    simp [this, isNull]
  · right
    rw [hz] at h3
    have : q = Value.null := by simpa [coerceInt, truthy] using h3.symm
    simp [this, isNull]
  · right
    rw [hz] at h3
    have : q = Value.null := by simpa [coerceInt, truthy] using h3.symm
    simp [this, isNull]

/-- With Lot Size or Quantity unknown, the derived Total Quantity is None. -/
theorem derive_total_null (c : Trade)
    (h : isNull c.lotSize = true ∨ isNull c.quantity = true) :
    (derive c).totalQuantity = Value.null := by
  unfold derive
  rcases h with h | h <;> simp [h]

/-! The worked numeric example of the specification: adding a trade with
Lot Size 50, Quantity 2 and LTP 5 stores Total Quantity 100 and Buy Size
500. -/

theorem add_numeric_example :
    add_trade [] richRaw = ([derive richCoerced], Option.none) ∧
    (derive richCoerced).totalQuantity = Value.num 100 ∧
    (derive richCoerced).buySize = Value.num 500 := by
  refine ⟨rfl, ?_, ?_⟩
  · show Value.num (decVal 50 0 0 * ((2 : ℤ) : ℚ)) = Value.num 100
    norm_num [decVal]
  · show Value.num (decVal 50 0 0 * ((2 : ℤ) : ℚ) * decVal 5 0 0) = Value.num 500
    norm_num [decVal]

end TradeTracker

namespace TradeTracker

/-- Claim C1: for every successful add or update, the stored record's
derived fields are recomputed from the supplied (coerced) raw fields of
that same record: Total Quantity is Lot Size times Quantity when both
are known and None (never zero) when either is unknown, and Buy Size is
Total Quantity times LTP when both are known and None when either is
unknown. -/
theorem add_update_recompute_derived (trades : List Trade) (t : Trade) (i : ℤ) :
    (∀ res, add_trade trades t = (res, Option.none) →
      ∃ r, res = trades ++ [r] ∧ derivedOk r) ∧
    (0 ≤ i → i < (trades.length : ℤ) →
      ∀ res, update_trade trades i t = (res, Option.none) →
        ∃ r, res = trades.set i.toNat r ∧ derivedOk r) := by
  constructor
  · intro res h
    obtain ⟨c, _, rfl⟩ := add_success_shape trades t res h
    exact ⟨derive c, rfl, derive_derivedOk c⟩
  · intro h0 h1 res h
    obtain ⟨c, _, rfl⟩ := update_success_shape trades i t res h0 h1 h
    exact ⟨derive c, rfl, derive_derivedOk c⟩

/-- Witness for C1: a concrete successful add, with the blank numeric
fields stored as unknown and the derived fields consistent. -/
theorem add_update_recompute_derived_witness :
    ∃ r, [defaultTrade] = [] ++ [r] ∧ derivedOk r :=
  (add_update_recompute_derived [] defaultTrade 0).1 [defaultTrade] (by decide)

/-- Claim C2: an add or update whose raw mapping holds a non-blank value
failing numeric coercion (for LTP, Lot Size, Quantity or Strike Price)
is rejected atomically — the sequence is returned unchanged with the
invalid-numeric-input error — while with no invalid field the operation
succeeds, and a blank value is not invalid: it coerces to unknown. -/
theorem validation_atomic_rejection (trades : List Trade) (t : Trade) (i : ℤ) :
    (anyInvalid t = true →
      add_trade trades t = (trades, some invalidMsg) ∧
      (0 ≤ i → i < (trades.length : ℤ) →
        update_trade trades i t = (trades, some invalidMsg))) ∧
    (anyInvalid t = false →
      (∃ r, add_trade trades t = (trades ++ [r], Option.none)) ∧
      (0 ≤ i → i < (trades.length : ℤ) →
        ∃ r, update_trade trades i t = (trades.set i.toNat r, Option.none))) ∧
    (truthy t.ltp = false → invalidFloat t.ltp = false ∧ coerceFloat t.ltp = some Value.null) := by
  refine ⟨?_, ?_, ?_⟩
  · intro h
    have hc : coerceTrade t = Option.none := (coerceTrade_none_iff t).mpr h
    constructor
    · unfold add_trade; rw [hc]
    · intro h0 h1; unfold update_trade; rw [if_pos ⟨h0, h1⟩, hc]
  · intro h
    have hc : coerceTrade t ≠ Option.none := by
      intro hn
      rw [(coerceTrade_none_iff t).mp hn] at h
      exact Bool.true_eq_false.mp h
    obtain ⟨c, hc⟩ := Option.ne_none_iff_exists'.mp hc
    constructor
    · exact ⟨derive c, by unfold add_trade; rw [hc]⟩
    · intro h0 h1
      exact ⟨derive c, by unfold update_trade; rw [if_pos ⟨h0, h1⟩, hc]⟩
  · intro h
    refine ⟨?_, (truthy_false_coerce t.ltp h).1⟩
    unfold invalidFloat
    rw [h]
    simp

/-- Witness for C2: adding a record whose LTP text is `abc` leaves the
empty store empty and yields the validation error message. -/
theorem validation_atomic_rejection_witness :
    add_trade [] badRaw = ([], some invalidMsg) :=
  ((validation_atomic_rejection [] badRaw 0).1 (by decide)).1

/-- Counterexample to claim C3 as stated: updating index 5 of a
one-record store is out of range, yet no IndexError outcome is raised or
displayed — the call returns the unchanged sequence with no error signal
at all (the outcome component is `Option.none`, exactly as on success;
src/app.py line 72 just falls through to `return trades`). -/
theorem update_out_of_range_no_error_cex :
    ¬(0 ≤ (5 : ℤ) ∧ (5 : ℤ) < (([defaultTrade].length : ℕ) : ℤ)) ∧
    update_trade [defaultTrade] 5 defaultTrade = ([defaultTrade], Option.none) := by decide

/-- Claim C3 as amended: for every index outside `[0, len)` and every
field mapping, update returns the record sequence unchanged — no
mutation — as a silent no-op with no error outcome (not an IndexError). -/
theorem update_out_of_range_silent_noop (trades : List Trade) (i : ℤ) (t : Trade)
    (h : ¬(0 ≤ i ∧ i < (trades.length : ℤ))) :
    update_trade trades i t = (trades, Option.none) := by
  unfold update_trade
  rw [if_neg h]

/-- Witness for C3 (amended): updating index 3 of the empty store. -/
theorem update_out_of_range_silent_noop_witness :
    update_trade [] 3 defaultTrade = ([], Option.none) :=
  update_out_of_range_silent_noop [] 3 defaultTrade (by decide)

/-- Claim C4: a valid-index update whose fields pass validation replaces
the record at that position with exactly the derived closure of the
supplied mapping — the stored record at `i` is `derive c` for the
coerced supplied fields `c`, a function of the supplied mapping only, so
nothing of the pre-update record survives — and no other position
changes. -/
theorem update_full_replacement (trades : List Trade) (i : ℤ) (t c : Trade)
    (h0 : 0 ≤ i) (h1 : i < (trades.length : ℤ)) (hc : coerceTrade t = some c) :
    update_trade trades i t = (trades.set i.toNat (derive c), Option.none) ∧
    (trades.set i.toNat (derive c))[i.toNat]? = some (derive c) ∧
    ∀ j : ℕ, j ≠ i.toNat → (trades.set i.toNat (derive c))[j]? = trades[j]? := by
  have hlen : i.toNat < trades.length := by omega
  refine ⟨?_, ?_, ?_⟩
  · unfold update_trade; rw [if_pos ⟨h0, h1⟩, hc]
  · exact List.getElem?_set_self hlen
  · intro j hj
    exact List.getElem?_set_ne (Ne.symm hj)

/-- Witness for C4: replacing the default record at index 0 with a fully
different record. -/
theorem update_full_replacement_witness :
    update_trade [defaultTrade] 0 exTrade = ([defaultTrade].set 0 (derive exTrade), Option.none) :=
  (update_full_replacement [defaultTrade] 0 exTrade exTrade (by decide) (by decide) (by decide)).1

/-- Counterexample to claim C5 as stated: a one-record store whose date
field parses fine does not round-trip to itself — re-import retypes the
cells (the Criteria list comes back as the string of its Python repr,
the date as a parsed timestamp, empty strings and None as NaN), so
`import(export(records))` differs from `records` even with no unknown
date field. -/
theorem roundtrip_not_identity_cex :
    ([exTrade] ≠ ([] : List Trade) ∧ ∀ t ∈ [exTrade], isNan (recordTransfer t).date = false) ∧
    roundtrip [exTrade] ≠ some [exTrade] := by decide

/-- Claim C5 as amended: for a non-empty record set in which every date
field survives the date parser, importing the exported text succeeds and
yields one record per original record, in order — each record being the
cell-codec transfer of the original (every cell written by `to_csv` and
re-inferred by `read_csv`, the date then parsed), not the original
record itself. -/
theorem roundtrip_applies_cell_codec (trades : List Trade) (hne : trades ≠ [])
    (hd : ∀ t ∈ trades, isNan (recordTransfer t).date = false) :
    roundtrip trades = some (trades.map recordTransfer) ∧
    ∀ res, roundtrip trades = some res → res.length = trades.length := by
  refine ⟨roundtrip_eq trades hne hd, ?_⟩
  intro res hres
  rw [roundtrip_eq trades hne hd] at hres
  simp only [Option.some.injEq] at hres
  rw [← hres]
  simp

/-- Witness for C5 (amended): the round trip of a concrete one-record
store evaluates to the cell-codec transfer of that record. -/
theorem roundtrip_applies_cell_codec_witness :
    roundtrip [exTrade] = some ([exTrade].map recordTransfer) :=
  (roundtrip_applies_cell_codec [exTrade] (by decide) (by decide)).1

/-- Counterexample to claim C6 as stated: a structurally well-formed
document whose single row has an unparseable date imports successfully
as the empty record list, yet the store keeps its pre-import records —
`main` only replaces the store when the imported list is truthy
(src/app.py line 250), so a successful import of zero records is not a
replacement. -/
theorem import_empty_result_keeps_store_cex :
    import_from_csv (headerFields :: [badDateRow]) = some [] ∧
    mainImportStep [exTrade] (headerFields :: [badDateRow]) = [exTrade] ∧
    [exTrade] ≠ ([] : List Trade) := by decide

/-- Claim C6 as amended: when import succeeds with at least one record,
the store is replaced by exactly the imported records — none of the
pre-import records remain, never a merge; an import yielding the empty
list (or failing) leaves the pre-import store untouched. -/
theorem import_nonempty_replaces (trades imported : List Trade) (csv : List (List String))
    (h : import_from_csv csv = some imported) (hne : imported ≠ []) :
    mainImportStep trades csv = imported := by
  unfold mainImportStep
  rw [h]
  simp [isEmpty_false_of_ne_nil imported hne]

/-- Witness for C6 (amended): importing a one-row document into the
empty store stores exactly the imported record. -/
theorem import_nonempty_replaces_witness :
    mainImportStep [] (headerFields :: [encodeRecord exTrade]) = [recordTransfer exTrade] :=
  import_nonempty_replaces [] [recordTransfer exTrade] (headerFields :: [encodeRecord exTrade])
    (by decide) (by decide)

/-- Claim C7: importing a structurally well-formed document returns
exactly the rows whose date cell parses, in their original order; every
row whose date fails to parse is silently dropped — no error, no per-row
report — and the import as a whole still succeeds. -/
theorem import_silently_drops_unparseable_dates (rows : List (List String)) :
    import_from_csv (headerFields :: rows) =
      some ((rows.filter (fun row => !isNan (importRow row).date)).map importRow) ∧
    (import_from_csv (headerFields :: rows)).isSome = true := by
  have h : import_from_csv (headerFields :: rows) =
      some ((rows.map importRow).filter (fun t => !isNan t.date)) := by
    unfold import_from_csv
    simp
  constructor
  · rw [h, List.filter_map]
    rfl
  · rw [h]
    rfl

/-- Claim C8: delete removes exactly the record at a valid index,
keeping all other records in their relative order; an out-of-range index
is silently ignored, returning the sequence unchanged with no error; and
a successful add always appends at the end of insertion order. -/
theorem delete_semantics_and_append_order (trades : List Trade) (i : ℤ) (t : Trade) :
    (0 ≤ i → i < (trades.length : ℤ) →
      delete_trade trades i = trades.take i.toNat ++ trades.drop (i.toNat + 1)) ∧
    (¬(0 ≤ i ∧ i < (trades.length : ℤ)) → delete_trade trades i = trades) ∧
    ((add_trade trades t).2 = Option.none →
      ∃ r, (add_trade trades t).1 = trades ++ [r]) := by
  refine ⟨?_, ?_, ?_⟩
  · intro h0 h1
    unfold delete_trade
    rw [if_pos ⟨h0, h1⟩]
    exact List.eraseIdx_eq_take_drop_succ trades i.toNat
  · intro h
    unfold delete_trade
    rw [if_neg h]
  · intro h
    unfold add_trade at h ⊢
    cases hc : coerceTrade t with
    | none => rw [hc] at h; simp at h
    | some c =>
      exact ⟨derive c, rfl⟩

/-- Witness for C8: deleting index 0 of a one-record store removes that
record. -/
theorem delete_semantics_and_append_order_witness :
    delete_trade [defaultTrade] 0 = [defaultTrade].take 0 ++ [defaultTrade].drop 1 :=
  (delete_semantics_and_append_order [defaultTrade] 0 defaultTrade).1 (by decide) (by decide)

/-- Claim C9: the coercion tests the raw value for truthiness, so every
falsy raw value — blank string, None, the number zero — coerces to
unknown; in particular an add or update whose raw Lot Size or Quantity
is the number zero succeeds with that field and the derived Total
Quantity stored as unknown, never as a known zero. -/
theorem falsy_coerces_to_unknown (trades : List Trade) (t : Trade) (v : Value) (i : ℤ) :
    (truthy v = false → coerceFloat v = some Value.null ∧ coerceInt v = some Value.null) ∧
    (truthy (Value.str "") = false ∧ truthy Value.null = false ∧
     truthy (Value.num 0) = false ∧ truthy (Value.intv 0) = false) ∧
    ((t.lotSize = Value.num 0 ∨ t.lotSize = Value.intv 0 ∨
      t.quantity = Value.num 0 ∨ t.quantity = Value.intv 0) →
      (∀ res, add_trade trades t = (res, Option.none) →
        ∃ r, res = trades ++ [r] ∧ r.totalQuantity = Value.null) ∧
      (0 ≤ i → i < (trades.length : ℤ) →
        ∀ res, update_trade trades i t = (res, Option.none) →
          ∃ r, res = trades.set i.toNat r ∧ r.totalQuantity = Value.null)) := by
  refine ⟨truthy_false_coerce v, by refine ⟨rfl, rfl, ?_, rfl⟩; simp [truthy], ?_⟩
  intro hz
  constructor
  · intro res h
    obtain ⟨c, hc, rfl⟩ := add_success_shape trades t res h
    exact ⟨derive c, rfl, derive_total_null c (zero_field_coerces_null t c hz hc)⟩
  · intro h0 h1 res h
    obtain ⟨c, hc, rfl⟩ := update_success_shape trades i t res h0 h1 h
    exact ⟨derive c, rfl, derive_total_null c (zero_field_coerces_null t c hz hc)⟩

/-- Witness for C9: adding a record whose raw Lot Size is the integer
zero succeeds and stores Total Quantity as unknown. -/
theorem falsy_coerces_to_unknown_witness :
    ∃ r, [defaultTrade] = [] ++ [r] ∧ r.totalQuantity = Value.null :=
  ((falsy_coerces_to_unknown [] zeroLotRaw Value.null 0).2.2 (by decide)).1 [defaultTrade]
    (by decide)

/-- Claim C10: exporting the empty record sequence returns no text at
all (None), not a header-only document; exporting a non-empty sequence
returns the header row of field names followed by one row per record. -/
theorem export_empty_none_else_rows (trades : List Trade) :
    export_to_csv [] = Option.none ∧
    (trades ≠ [] →
      export_to_csv trades = some (headerFields :: trades.map encodeRecord) ∧
      ∀ csv, export_to_csv trades = some csv → csv.length = trades.length + 1) := by
  constructor
  · rfl
  · intro hne
    have h : export_to_csv trades = some (headerFields :: trades.map encodeRecord) := by
      unfold export_to_csv
      simp [isEmpty_false_of_ne_nil trades hne]
    refine ⟨h, ?_⟩
    intro csv hcsv
    rw [h] at hcsv
    simp only [Option.some.injEq] at hcsv
    rw [← hcsv]
    simp

/-- Witness for C10: exporting a one-record store yields the header and
one data row. -/
theorem export_empty_none_else_rows_witness :
    export_to_csv [defaultTrade] = some (headerFields :: [defaultTrade].map encodeRecord) :=
  ((export_empty_none_else_rows [defaultTrade]).2 (by decide)).1

end TradeTracker
